import Mathlib

/-!
Formal model of the L2TP/IPSec VPN monitor (src/vpn_monitor.py, class VPNMonitor).

Python strings are modelled as lists of characters (abbrev Str), Python
substring tests (the in operator) as the executable function containsB,
and str.lower as lowerStr.  External effects (subprocess invocations,
file-system operations, database statements) are modelled by environment
records that supply the outcome of each external interaction, so that the
control flow of the Python code - including its try/except/finally
structure - becomes an explicit total function on those environments.
-/

/-- Python strings, modelled as lists of characters. -/
abbrev Str := List Char

/-- Python str.lower (restricted to the per-character mapping, which is
exact for the ASCII command output handled by the monitor). -/
def lowerStr (s : Str) : Str := s.map Char.toLower

/-- Executable test that the first list is an initial segment of the second. -/
def isPrefixOfB [DecidableEq α] : List α → List α → Bool
  | [], _ => true
  | _ :: _, [] => false
  | a :: as, b :: bs => if a = b then isPrefixOfB as bs else false

/-- Python substring / sublist membership: containsB s pat models
pat in s. -/
def containsB [DecidableEq α] : List α → List α → Bool
  | [], pat => isPrefixOfB pat []
  | c :: rest, pat => isPrefixOfB pat (c :: rest) || containsB rest pat

theorem isPrefixOfB_map (f : α → β) [DecidableEq α] [DecidableEq β] :
    ∀ p s : List α, isPrefixOfB p s = true → isPrefixOfB (p.map f) (s.map f) = true := by
  intro p
  induction p with
  | nil => intro s _; simp [isPrefixOfB]
  | cons a as ih =>
    intro s h
    cases s with
    | nil => simp [isPrefixOfB] at h
    | cons b bs =>
      simp only [isPrefixOfB] at h
      by_cases hab : a = b
      · subst hab
        simp only [if_pos rfl] at h
        simpa [List.map, isPrefixOfB] using ih bs h
      · simp [if_neg hab] at h

theorem containsB_map (f : α → β) [DecidableEq α] [DecidableEq β] :
    ∀ s p : List α, containsB s p = true → containsB (s.map f) (p.map f) = true := by
  intro s
  induction s with
  | nil =>
    intro p h
    cases p with
    | nil => simp [containsB, isPrefixOfB]
    | cons a as => simp [containsB, isPrefixOfB] at h
  | cons c rest ih =>
    intro p h
    simp only [containsB, Bool.or_eq_true] at h ⊢
    rcases h with h | h
    · exact Or.inl (isPrefixOfB_map f p (c :: rest) h)
    · exact Or.inr (ih p h)

/-- If a pattern that is already lower-case occurs in a string, it also
occurs in the lower-cased string (used to relate literal substring
hypotheses to the case-insensitive checks performed by the code). -/
theorem containsB_lowerStr (s p : Str) (h : containsB s p = true)
    (hp : p.map Char.toLower = p) : containsB (lowerStr s) p = true := by
  have hmap := containsB_map Char.toLower s p h
  rwa [hp] at hmap

/-- Outcome of a Python operation that either succeeds or raises an
exception carrying a message (file-system and database calls). -/
inductive FileOpResult where
  | ok
  | exc (msg : Str)
  deriving DecidableEq

/-- Outcome of subprocess.run with capture_output: a completed process
with return code and decoded stdout/stderr, a raised
subprocess.TimeoutExpired, or any other raised exception. -/
inductive SubprocResult where
  | ok (returncode : Int) (stdout : Str) (stderr : Str)
  | timeoutExpired
  | exc (msg : Str)
  deriving DecidableEq

/-- True when subprocess.run returned normally (no exception raised);
the return code may still be non-zero. -/
def SubprocResult.completed : SubprocResult → Bool
  | .ok _ _ _ => true
  | _ => false

/-- One parsed VPN server specification (dict built by _parse_vpn_servers). -/
structure Server where
  name : Str
  ip : Str
  username : Str
  password : Str
  shared_key : Str
  deriving DecidableEq

/-- Whitespace characters removed by Python str.strip. -/
def isSpaceChar (c : Char) : Bool :=
  c = ' ' || c = '\t' || c = '\n' || c = '\r' || c = Char.ofNat 11 || c = Char.ofNat 12

/-- Python str.strip. -/
def trimStr (s : Str) : Str :=
  ((s.dropWhile isSpaceChar).reverse.dropWhile isSpaceChar).reverse

/-- Python str.split with a one-character separator: splits at every
occurrence, and the split of the empty string is a single empty field. -/
def splitOnChar (sep : Char) : Str → List Str
  | [] => [[]]
  | c :: cs =>
    let r := splitOnChar sep cs
    if c = sep then [] :: r
    else
      match r with
      | [] => [[c]]
      | h :: t => (c :: h) :: t

/-- Body of the per-entry logic of _parse_vpn_servers: strip the entry,
split on the colon; exactly five fields build a server dict, any other
field count is logged and skipped (continue). -/
def parseServerEntry (server_config : Str) : Option Server :=
  match splitOnChar ':' (trimStr server_config) with
  | [n, i, u, p, k] => some ⟨n, i, u, p, k⟩
  | _ => none

/-- The loop of _parse_vpn_servers over the comma-separated entries. -/
def parseServerEntries (entries : List Str) : List Server :=
  entries.filterMap parseServerEntry

/-- _parse_vpn_servers: raises ValueError when VPN_SERVERS is empty,
otherwise returns the servers parsed from the comma-separated list. -/
def _parse_vpn_servers (servers_str : Str) : Except Str (List Server) :=
  if servers_str = [] then
    .error ("VPN_SERVERS environment variable is required".data)
  else
    .ok (parseServerEntries (splitOnChar ',' servers_str))

/-- _test_basic_connectivity: runs ping -c 3 ip with a 10 second timeout;
returns True on exit code 0, True on non-zero exit (server may block
ICMP), and True when the subprocess call raises (except branch). -/
def _test_basic_connectivity (ping_result : SubprocResult) : Bool :=
  match ping_result with
  | .ok rc _ _ => if rc = 0 then true else true
  | .timeoutExpired => true
  | .exc _ => true

theorem basic_connectivity_true (r : SubprocResult) :
    _test_basic_connectivity r = true := by
  cases r with
  | ok rc o e => simp [_test_basic_connectivity]
  | timeoutExpired => rfl
  | exc m => rfl

/-- External interactions performed by _test_vpn_connection, recorded in
order of invocation (stopAll covers both the mid-attempt cleanup call and
the guaranteed cleanup in the finally block). -/
inductive Event where
  | mkdir
  | ping
  | stopAll
  | writeIpsecConfig
  | writeXl2tpdConfig
  | daemonStart
  | loadConfig
  | tcpdumpStart
  | ipsecUp
  | tcpdumpStop
  | sleep (ms : Nat)
  | statusQuery
  deriving DecidableEq

/-- Environment for one _test_vpn_connection call: the outcome and the
wall-clock duration (milliseconds) of every external interaction, in
source order.  _stop_all_vpn_connections, _start_strongswan_daemon,
_load_ipsec_config and the tcpdump blocks catch their own exceptions, so
they contribute only a Bool (or nothing) here. -/
structure AttemptEnv where
  mkdirRes : FileOpResult
  mkdirDur : Nat
  pingRes : SubprocResult
  pingDur : Nat
  stopMidDur : Nat
  ipsecCfgRes : FileOpResult
  ipsecCfgDur : Nat
  xl2tpdCfgRes : FileOpResult
  xl2tpdCfgDur : Nat
  daemonStartRes : Bool
  daemonStartDur : Nat
  loadCfgRes : Bool
  loadCfgDur : Nat
  tcpdumpStartDur : Nat
  upRes : SubprocResult
  upDur : Nat
  tcpdumpStopDur : Nat
  statusRes : SubprocResult
  statusDur : Nat

/-- The triple returned by _test_vpn_connection:
(success, connection_time_ms, error_message). -/
structure AttemptResult where
  success : Bool
  connection_time : Nat
  error_message : Option Str
  deriving DecidableEq

def cannotReachMsg (ip : Str) : Str := "Cannot reach VPN server ".data ++ ip

def daemonFailMsg : Str := "Failed to start strongSwan daemon".data

def loadFailMsg : Str := "Failed to load IPSec configuration".data

def vpnTimeoutMsg : Str := "VPN connection timeout".data

def mismatchMsg : Str := "Encryption algorithm mismatch - server rejected our proposals".data

def authFailMsg : Str := "Authentication failed - likely incorrect shared key".data

def handshakeMsg : Str := "Server not responding to handshake - possible firewall or server config issue".data

def expiredMsg : Str := "IPSec SA established but immediately expired - timing issue with Synology server".data

def noStatusMsg : Str := "No status available".data

def establishedPat : Str := "ESTABLISHED".data

def npcPat : Str := "no proposal chosen".data

def authPat : Str := "authentication failed".data

def timeoutPat : Str := "timeout".data

def retransmitPat : Str := "retransmit".data

def isakmpPat : Str := "ISAKMP SA established".data

def stateMainPat : Str := "STATE_MAIN_R3".data

def genericFailMsg (up_output : Str) : Str :=
  "Connection failed. Details: ".data ++ up_output.take 200 ++ "...".data

/-- The result-classification if/elif chain at the end of
_test_vpn_connection, mapping the captured ipsec up stdout and the final
ipsec statusall output to (success, error_message). -/
def classifyOutcome (up_output status_output : Str) : Bool × Option Str :=
  if containsB status_output establishedPat then
    (true, none)
  else if containsB (lowerStr up_output) npcPat || containsB (lowerStr status_output) npcPat then
    (false, some mismatchMsg)
  else if containsB (lowerStr up_output) authPat || containsB (lowerStr status_output) authPat then
    (false, some authFailMsg)
  else if containsB (lowerStr up_output) timeoutPat || containsB (lowerStr up_output) retransmitPat then
    (false, some handshakeMsg)
  else if containsB up_output isakmpPat || containsB up_output stateMainPat then
    if containsB (lowerStr up_output) "expired".data || containsB (lowerStr status_output) "expired".data then
      (false, some expiredMsg)
    else
      (true, none)
  else
    (false, some (genericFailMsg up_output))

/-- The try/except part of _test_vpn_connection.  Each early return of the
Python code is a leaf; a raised subprocess.TimeoutExpired reaches the
first except clause (VPN connection timeout) and any other exception the
second (its message becomes the error).  connection_time is the wall
clock accumulated up to the return point.  The trace lists the external
interactions that were invoked, in order. -/
def attemptBody (env : AttemptEnv) (server : Server) : AttemptResult × List Event :=
  let t1 := env.mkdirDur
  match env.mkdirRes with
  | .exc m => (⟨false, t1, some m⟩, [Event.mkdir])
  | .ok =>
  let t2 := t1 + env.pingDur
  if _test_basic_connectivity env.pingRes = false then
    (⟨false, t2, some (cannotReachMsg server.ip)⟩, [Event.mkdir, Event.ping])
  else
  let t3 := t2 + env.stopMidDur
  let t4 := t3 + env.ipsecCfgDur
  match env.ipsecCfgRes with
  | .exc m => (⟨false, t4, some m⟩, [Event.mkdir, Event.ping, Event.stopAll, Event.writeIpsecConfig])
  | .ok =>
  let t5 := t4 + env.xl2tpdCfgDur
  match env.xl2tpdCfgRes with
  | .exc m =>
    (⟨false, t5, some m⟩,
      [Event.mkdir, Event.ping, Event.stopAll, Event.writeIpsecConfig, Event.writeXl2tpdConfig])
  | .ok =>
  let t6 := t5 + env.daemonStartDur
  if env.daemonStartRes = false then
    (⟨false, t6, some daemonFailMsg⟩,
      [Event.mkdir, Event.ping, Event.stopAll, Event.writeIpsecConfig, Event.writeXl2tpdConfig,
        Event.daemonStart])
  else
  let t7 := t6 + env.loadCfgDur
  if env.loadCfgRes = false then
    (⟨false, t7, some loadFailMsg⟩,
      [Event.mkdir, Event.ping, Event.stopAll, Event.writeIpsecConfig, Event.writeXl2tpdConfig,
        Event.daemonStart, Event.loadConfig])
  else
  let t8 := t7 + env.tcpdumpStartDur
  let t9 := t8 + env.upDur
  match env.upRes with
  | .timeoutExpired =>
    (⟨false, t9, some vpnTimeoutMsg⟩,
      [Event.mkdir, Event.ping, Event.stopAll, Event.writeIpsecConfig, Event.writeXl2tpdConfig,
        Event.daemonStart, Event.loadConfig, Event.tcpdumpStart, Event.ipsecUp])
  | .exc m =>
    (⟨false, t9, some m⟩,
      [Event.mkdir, Event.ping, Event.stopAll, Event.writeIpsecConfig, Event.writeXl2tpdConfig,
        Event.daemonStart, Event.loadConfig, Event.tcpdumpStart, Event.ipsecUp])
  | .ok _ up_output _ =>
  let t10 := t9 + env.tcpdumpStopDur + 3000
  let t11 := t10 + env.statusDur
  match env.statusRes with
  | .timeoutExpired =>
    (⟨false, t11, some vpnTimeoutMsg⟩,
      [Event.mkdir, Event.ping, Event.stopAll, Event.writeIpsecConfig, Event.writeXl2tpdConfig,
        Event.daemonStart, Event.loadConfig, Event.tcpdumpStart, Event.ipsecUp, Event.tcpdumpStop,
        Event.sleep 3000, Event.statusQuery])
  | .exc m =>
    (⟨false, t11, some m⟩,
      [Event.mkdir, Event.ping, Event.stopAll, Event.writeIpsecConfig, Event.writeXl2tpdConfig,
        Event.daemonStart, Event.loadConfig, Event.tcpdumpStart, Event.ipsecUp, Event.tcpdumpStop,
        Event.sleep 3000, Event.statusQuery])
  | .ok status_rc status_stdout _ =>
  let status_output := if status_rc = 0 then status_stdout else noStatusMsg
  let cls := classifyOutcome up_output status_output
  (⟨cls.1, t11, cls.2⟩,
    [Event.mkdir, Event.ping, Event.stopAll, Event.writeIpsecConfig, Event.writeXl2tpdConfig,
      Event.daemonStart, Event.loadConfig, Event.tcpdumpStart, Event.ipsecUp, Event.tcpdumpStop,
      Event.sleep 3000, Event.statusQuery])

/-- _test_vpn_connection: the try/except body followed by the finally
block, which unconditionally invokes _stop_all_vpn_connections after the
outcome triple has been computed. -/
def _test_vpn_connection (env : AttemptEnv) (server : Server) : AttemptResult × List Event :=
  let r := attemptBody env server
  (r.1, r.2 ++ [Event.stopAll])

/-- The control and PID files removed by _stop_all_vpn_connections, in
source order (the starter.charon.pid path appears twice in the source). -/
def files_to_remove : List Str :=
  ["/var/run/xl2tpd/l2tp-control".data,
   "/var/run/charon.pid".data,
   "/var/run/starter.charon.pid".data,
   "/var/run/starter.pid".data,
   "/var/run/charon.ctl".data,
   "/var/run/charon.vici".data,
   "/var/run/starter.charon.pid".data]

/-- The processes force-killed by _stop_all_vpn_connections. -/
def processes_to_kill : List Str :=
  ["xl2tpd".data, "pppd".data, "charon".data, "starter".data]

/-- The file system as the set of paths that currently exist. -/
abbrev FS := List Str

/-- Environment for one _stop_all_vpn_connections call: outcomes of the
ipsec down / ipsec stop commands, of each killall invocation, and of each
os.remove call. -/
structure StopEnv where
  downRes : SubprocResult
  stopRes : SubprocResult
  killRes : Str → SubprocResult
  removeRes : Str → FileOpResult

/-- The killall loop: subprocess.run for each process in order; a raised
exception aborts the remainder of the try block. -/
def runKillalls (killRes : Str → SubprocResult) : List Str → Bool
  | [] => true
  | p :: rest =>
    match killRes p with
    | .ok _ _ _ => runKillalls killRes rest
    | _ => false

/-- The file-removal loop: for each listed path, if it exists remove it;
a raised os.remove aborts the loop, carrying the partially-cleaned file
system to the except handler. -/
def removeListedFiles (removeRes : Str → FileOpResult) : List Str → FS → Except FS FS
  | [], fs => .ok fs
  | f :: rest, fs =>
    if f ∈ fs then
      match removeRes f with
      | .ok => removeListedFiles removeRes rest (fs.filter (fun g => g ≠ f))
      | .exc _ => .error fs
    else
      removeListedFiles removeRes rest fs

/-- The try block of _stop_all_vpn_connections: ipsec down, ipsec stop,
the killall loop, then the file-removal loop and a 2 second sleep.  An
error value means an exception reached the except handler, carrying the
file-system state at that point. -/
def stopAllBody (env : StopEnv) (fs : FS) : Except FS FS :=
  if env.downRes.completed = false then .error fs
  else if env.stopRes.completed = false then .error fs
  else if runKillalls env.killRes processes_to_kill = false then .error fs
  else removeListedFiles env.removeRes files_to_remove fs

/-- _stop_all_vpn_connections: the try block with its except handler,
which logs and swallows every exception, so the call always returns
normally with whatever file-system state was reached. -/
def _stop_all_vpn_connections (env : StopEnv) (fs : FS) : FS :=
  match stopAllBody env fs with
  | .ok fs1 => fs1
  | .error fs1 => fs1

/-- System identity captured by _get_system_info and used by _log_result. -/
structure SysInfo where
  hostname : Str
  username : Str
  os : Str
  os_version : Str
  public_ip : Option Str

/-- Monitor version constant. -/
def VERSION : Str := "2.0.0".data

/-- The operating_system column value: os followed by os_version. -/
def osDescr (si : SysInfo) : Str := si.os ++ ' ' :: si.os_version

/-- One row of the vpn_test_results table, with the columns filled by the
INSERT in _log_result. -/
structure TestRow where
  computer_identifier : Str
  system_username : Str
  public_ip_address : Option Str
  vpn_server_name : Str
  vpn_server_ip : Str
  connection_successful : Bool
  connection_time_ms : Option Nat
  error_message : Option Str
  operating_system : Str
  monitor_version : Str
  deriving DecidableEq

/-- One row of the monitor_instances table (computer_identifier is its
unique key). -/
structure MonitorRow where
  computer_identifier : Str
  system_username : Str
  operating_system : Str
  monitor_version : Str
  total_tests_run : Nat
  last_seen : Nat
  deriving DecidableEq

/-- The two tables touched by _log_result. -/
structure DB where
  vpn_test_results : List TestRow
  monitor_instances : List MonitorRow
  deriving DecidableEq

/-- The INSERT ... ON DUPLICATE KEY UPDATE statement on monitor_instances:
if a row with the key exists, its running total is incremented, last_seen
refreshed and monitor_version overwritten; otherwise a fresh row with
total_tests_run 1 is inserted. -/
def monitorUpsert (key su os ver : Str) (now : Nat) : List MonitorRow → List MonitorRow
  | [] => [⟨key, su, os, ver, 1, now⟩]
  | r :: rs =>
    if r.computer_identifier = key then
      { r with total_tests_run := r.total_tests_run + 1, last_seen := now,
               monitor_version := ver } :: rs
    else
      r :: monitorUpsert key su os ver now rs

/-- The running total stored for a computer identifier (first matching
row, as under the unique-key constraint). -/
def monitorCount (rows : List MonitorRow) (key : Str) : Option Nat :=
  match rows with
  | [] => none
  | r :: rs => if r.computer_identifier = key then some r.total_tests_run else monitorCount rs key

/-- Environment for one _log_result call: outcomes of obtaining the
connection and of executing the insert, the upsert and the commit, plus
the CURRENT_TIMESTAMP used for last_seen. -/
structure LogEnv where
  connectRes : FileOpResult
  insertRes : FileOpResult
  upsertRes : FileOpResult
  commitRes : FileOpResult
  now : Nat

/-- The try block of _log_result: connect, INSERT the test row, upsert
the heartbeat row, commit.  A raised step yields an error; both
statements become visible only when the commit succeeds. -/
def logResultBody (env : LogEnv) (si : SysInfo) (server : Server) (success : Bool)
    (connection_time : Option Nat) (error_message : Option Str) (db : DB) : Except Str DB :=
  match env.connectRes with
  | .exc m => .error m
  | .ok =>
  match env.insertRes with
  | .exc m => .error m
  | .ok =>
  match env.upsertRes with
  | .exc m => .error m
  | .ok =>
  match env.commitRes with
  | .exc m => .error m
  | .ok =>
    .ok
      { vpn_test_results := db.vpn_test_results ++
          [⟨si.hostname, si.username, si.public_ip, server.name, server.ip,
            success, connection_time, error_message, osDescr si, VERSION⟩],
        monitor_instances :=
          monitorUpsert si.hostname si.username (osDescr si) VERSION env.now
            db.monitor_instances }

/-- _log_result: the try block with its except handler, which logs the
persistence failure and swallows it, leaving the database untouched. -/
def _log_result (env : LogEnv) (si : SysInfo) (server : Server) (success : Bool)
    (connection_time : Option Nat) (error_message : Option Str) (db : DB) : DB :=
  match logResultBody env si server success connection_time error_message db with
  | .ok db1 => db1
  | .error _ => db

/-- The per-server loop of run_tests: test each server in list order via
_test_vpn_connection, log the outcome via _log_result, and collect the
outcome for the summary.  The environments are indexed by the position of
the server in the list. -/
def runTestsLoop (si : SysInfo) (aenv : Nat → AttemptEnv) (lenv : Nat → LogEnv) :
    Nat → List Server → DB → List (Server × AttemptResult) × DB
  | _, [], db => ([], db)
  | i, s :: rest, db =>
    let res := (_test_vpn_connection (aenv i) s).1
    let db1 := _log_result (lenv i) si s res.success (some res.connection_time)
      res.error_message db
    let r2 := runTestsLoop si aenv lenv (i + 1) rest db1
    ((s, res) :: r2.1, r2.2)

/-- run_tests: one monitoring pass over every configured server. -/
def run_tests (si : SysInfo) (aenv : Nat → AttemptEnv) (lenv : Nat → LogEnv)
    (servers : List Server) (db : DB) : List (Server × AttemptResult) × DB :=
  runTestsLoop si aenv lenv 0 servers db

theorem getLast?_append_singleton (l : List α) (a : α) :
    (l ++ [a]).getLast? = some a := by
  simp

/-- Number of ipsec statusall queries recorded in a trace. -/
def statusQueries (tr : List Event) : Nat := tr.count Event.statusQuery

/-- Concrete server fixture (the Scenario A specification). -/
def srvNy1 : Server :=
  ⟨"ny1".data, "203.0.113.5".data, "alice".data, "secret".data, "psk123".data⟩

/-- Baseline environment in which every external interaction succeeds and
the final status output reports ESTABLISHED. -/
def envAllOk : AttemptEnv where
  mkdirRes := .ok
  mkdirDur := 5
  pingRes := .ok 0 "3 received".data []
  pingDur := 200
  stopMidDur := 2000
  ipsecCfgRes := .ok
  ipsecCfgDur := 5
  xl2tpdCfgRes := .ok
  xl2tpdCfgDur := 5
  daemonStartRes := true
  daemonStartDur := 3000
  loadCfgRes := true
  loadCfgDur := 3000
  tcpdumpStartDur := 1000
  upRes := .ok 0 "connection established".data []
  upDur := 1500
  tcpdumpStopDur := 100
  statusRes := .ok 0 "ESTABLISHED 2s ago".data []
  statusDur := 100

/-- C1: for every server target, one call to _test_vpn_connection returns
exactly one outcome triple (the model is a total function into a single
AttemptResult) and invokes _stop_all_vpn_connections on every exit path,
including the paths on which an intermediate step raises: in every
environment the last recorded external interaction is the cleanup call
performed by the finally block. -/
theorem attempt_guaranteed_cleanup (env : AttemptEnv) (server : Server) :
    Event.stopAll ∈ (_test_vpn_connection env server).2 ∧
      ((_test_vpn_connection env server).2).getLast? = some Event.stopAll := by
  constructor
  · simp [_test_vpn_connection]
  · simp only [_test_vpn_connection]
    exact getLast?_append_singleton _ _

/-- C9: _test_basic_connectivity returns true on every input - exit code
zero, non-zero exit, and a raised exception alike - so a failed ICMP
probe never prevents the attempt from proceeding: whenever the directory
creation and the two config writes do not raise, the daemon-start
operation is invoked no matter what the ping returned. -/
theorem probe_always_true_and_daemon_start_reached (r : SubprocResult)
    (env : AttemptEnv) (server : Server)
    (hmk : env.mkdirRes = .ok) (hic : env.ipsecCfgRes = .ok)
    (hxc : env.xl2tpdCfgRes = .ok) :
    _test_basic_connectivity r = true ∧
      Event.daemonStart ∈ (_test_vpn_connection env server).2 := by
  refine ⟨basic_connectivity_true r, ?_⟩
  have hp := basic_connectivity_true env.pingRes
  rcases hds : env.daemonStartRes with _ | _ <;>
  rcases hlc : env.loadCfgRes with _ | _ <;>
  rcases hup : env.upRes with ⟨urc, uo, ue⟩ | _ | m <;>
  rcases hst : env.statusRes with ⟨src, so, se⟩ | _ | m2 <;>
    simp [_test_vpn_connection, attemptBody, hmk, hic, hxc, hp, hds, hlc, hup, hst]

/-- Witness for C9 at a concrete failed ping (exit code 1). -/
theorem probe_always_true_and_daemon_start_reached_witness :
    _test_basic_connectivity (.ok 1 "100% packet loss".data []) = true ∧
      Event.daemonStart ∈
        (_test_vpn_connection
          { envAllOk with pingRes := .ok 1 "100% packet loss".data [] } srvNy1).2 :=
  probe_always_true_and_daemon_start_reached (.ok 1 "100% packet loss".data [])
    { envAllOk with pingRes := .ok 1 "100% packet loss".data [] } srvNy1 rfl rfl rfl

/-- Environment whose ICMP probe fails (ping exits 1) while every later
step succeeds and the daemon reports ESTABLISHED. -/
def envPingFail : AttemptEnv :=
  { envAllOk with pingRes := .ok 1 "100% packet loss".data [] }

/-- Counterexample to C2: with a failing ICMP probe (ping exit code 1)
the attempt does NOT return success=false with a Cannot-reach error and
daemon start IS invoked - here the attempt even succeeds outright. -/
theorem unreachable_probe_claim_counterexample :
    (_test_vpn_connection envPingFail srvNy1).1.success = true ∧
    (_test_vpn_connection envPingFail srvNy1).1.error_message = none ∧
    Event.daemonStart ∈ (_test_vpn_connection envPingFail srvNy1).2 := by
  decide

/-- C2 (amended): the connection attempt ignores the ICMP probe outcome
entirely - replacing the ping result by any other yields the identical
outcome and trace - and, whenever the directory creation and config
writes do not raise, daemon start is invoked even for a server whose
ping failed. -/
theorem attempt_independent_of_ping (env : AttemptEnv) (server : Server)
    (p1 p2 : SubprocResult) :
    (_test_vpn_connection { env with pingRes := p1 } server =
       _test_vpn_connection { env with pingRes := p2 } server) ∧
    (env.mkdirRes = .ok → env.ipsecCfgRes = .ok → env.xl2tpdCfgRes = .ok →
       Event.daemonStart ∈ (_test_vpn_connection { env with pingRes := p1 } server).2) := by
  constructor
  · simp [_test_vpn_connection, attemptBody, basic_connectivity_true]
  · intro hmk hic hxc
    exact (probe_always_true_and_daemon_start_reached p1
      { env with pingRes := p1 } server hmk hic hxc).2

/-- Environment in which the single status query reports a tunnel that is
still not ESTABLISHED (and the bring-up output matches no failure
pattern), so a polling loop would have had reason to query again. -/
def envNoEstablish : AttemptEnv :=
  { envAllOk with
      upRes := .ok 1 "initiating".data [],
      statusRes := .ok 0 "0 up, 1 connecting".data [] }

/-- Counterexample to C3: the status output of the only query does not
report ESTABLISHED, yet the attempt performs exactly one status query in
total and declares failure immediately - there is no repeated
fixed-interval polling until ESTABLISHED or a maxWaitSeconds bound. -/
theorem poll_until_established_counterexample :
    containsB "0 up, 1 connecting".data establishedPat = false ∧
    statusQueries (_test_vpn_connection envNoEstablish srvNy1).2 = 1 ∧
    (_test_vpn_connection envNoEstablish srvNy1).1.success = false := by
  decide

set_option maxHeartbeats 3200000 in
/-- C3 (amended): the tunnel-establishment wait of this revision is not a
polling loop: an attempt never performs more than one daemon status
query, and on every run whose bring-up command returns (so the attempt
reaches the wait) the trace is exactly one fixed 3-second sleep followed
by one status query, from whose output success or failure is decided. -/
theorem single_status_query_after_fixed_sleep (env : AttemptEnv) (server : Server) :
    statusQueries (_test_vpn_connection env server).2 ≤ 1 ∧
    (env.mkdirRes = .ok → env.ipsecCfgRes = .ok → env.xl2tpdCfgRes = .ok →
      env.daemonStartRes = true → env.loadCfgRes = true →
      env.upRes.completed = true →
      containsB (_test_vpn_connection env server).2
          [Event.sleep 3000, Event.statusQuery] = true ∧
        statusQueries (_test_vpn_connection env server).2 = 1) := by
  have hp := basic_connectivity_true env.pingRes
  constructor
  · rcases hmk : env.mkdirRes with _ | m0 <;>
    rcases hic : env.ipsecCfgRes with _ | m1 <;>
    rcases hxc : env.xl2tpdCfgRes with _ | m2 <;>
    rcases hds : env.daemonStartRes with _ | _ <;>
    rcases hlc : env.loadCfgRes with _ | _ <;>
    rcases hup : env.upRes with ⟨urc, uo, ue⟩ | _ | m3 <;>
    rcases hst : env.statusRes with ⟨src, so, se⟩ | _ | m4 <;>
      simp [_test_vpn_connection, attemptBody, statusQueries, hp,
        hmk, hic, hxc, hds, hlc, hup, hst]
  · intro hmk hic hxc hds hlc hupc
    rcases hup : env.upRes with ⟨urc, uo, ue⟩ | _ | m3
    · rcases hst : env.statusRes with ⟨src, so, se⟩ | _ | m4 <;>
        simp [_test_vpn_connection, attemptBody, statusQueries, hp,
          hmk, hic, hxc, hds, hlc, hup, hst] <;> (try decide)
    · rw [hup] at hupc; simp [SubprocResult.completed] at hupc
    · rw [hup] at hupc; simp [SubprocResult.completed] at hupc

/-- Witness for C2 (amended) at a failing ping (exit 1) versus a
succeeding ping (exit 0). -/
theorem attempt_independent_of_ping_witness :
    (_test_vpn_connection { envAllOk with pingRes := .ok 1 [] [] } srvNy1 =
       _test_vpn_connection { envAllOk with pingRes := .ok 0 [] [] } srvNy1) ∧
    Event.daemonStart ∈
      (_test_vpn_connection { envAllOk with pingRes := .ok 1 [] [] } srvNy1).2 :=
  ⟨(attempt_independent_of_ping envAllOk srvNy1 (.ok 1 [] []) (.ok 0 [] [])).1,
   (attempt_independent_of_ping envAllOk srvNy1 (.ok 1 [] []) (.ok 0 [] [])).2 rfl rfl rfl⟩

/-- Witness for C3 (amended) on the all-success environment. -/
theorem single_status_query_after_fixed_sleep_witness :
    statusQueries (_test_vpn_connection envAllOk srvNy1).2 ≤ 1 ∧
    (containsB (_test_vpn_connection envAllOk srvNy1).2
        [Event.sleep 3000, Event.statusQuery] = true ∧
      statusQueries (_test_vpn_connection envAllOk srvNy1).2 = 1) :=
  ⟨(single_status_query_after_fixed_sleep envAllOk srvNy1).1,
   (single_status_query_after_fixed_sleep envAllOk srvNy1).2 rfl rfl rfl rfl rfl rfl⟩

/-- C4: whenever the attempt reaches the classification step and the
captured bring-up output or final status output contains the substring
no proposal chosen while the status output does not report ESTABLISHED,
the error detail is the encryption-algorithm-mismatch message.  (The
code lower-cases the outputs before matching, so a literal occurrence of
the lower-case pattern is preserved.) -/
theorem no_proposal_yields_mismatch_error (env : AttemptEnv) (server : Server)
    (urc : Int) (uout uerr : Str) (src : Int) (sout serr : Str)
    (hmk : env.mkdirRes = .ok) (hic : env.ipsecCfgRes = .ok) (hxc : env.xl2tpdCfgRes = .ok)
    (hds : env.daemonStartRes = true) (hlc : env.loadCfgRes = true)
    (hup : env.upRes = .ok urc uout uerr) (hst : env.statusRes = .ok src sout serr)
    (hnpc : containsB uout npcPat = true ∨
      containsB (if src = 0 then sout else noStatusMsg) npcPat = true)
    (hest : containsB (if src = 0 then sout else noStatusMsg) establishedPat = false) :
    (_test_vpn_connection env server).1.success = false ∧
      (_test_vpn_connection env server).1.error_message = some mismatchMsg := by
  have hp := basic_connectivity_true env.pingRes
  have hlow : npcPat.map Char.toLower = npcPat := by decide
  have h2 : (containsB (lowerStr uout) npcPat ||
      containsB (lowerStr (if src = 0 then sout else noStatusMsg)) npcPat) = true := by
    rcases hnpc with h | h
    · have hh := containsB_lowerStr _ _ h hlow
      simp [hh]
    · have hh := containsB_lowerStr _ _ h hlow
      simp [hh]
  simp [_test_vpn_connection, attemptBody, classifyOutcome, hp,
    hmk, hic, hxc, hds, hlc, hup, hst, hest, h2]

/-- Environment whose bring-up output is the no-proposal-chosen daemon
message and whose status never reports ESTABLISHED. -/
def envNoProposal : AttemptEnv :=
  { envAllOk with
      upRes := .ok 1 "no proposal chosen".data [],
      statusRes := .ok 0 "0 up".data [] }

/-- Witness for C4 on a concrete no-proposal-chosen run. -/
theorem no_proposal_yields_mismatch_error_witness :
    (_test_vpn_connection envNoProposal srvNy1).1.success = false ∧
      (_test_vpn_connection envNoProposal srvNy1).1.error_message = some mismatchMsg :=
  no_proposal_yields_mismatch_error envNoProposal srvNy1
    1 "no proposal chosen".data [] 0 "0 up".data []
    rfl rfl rfl rfl rfl rfl rfl (Or.inl (by decide)) (by decide)

/-- C10: when the final status output does not report ESTABLISHED, none of
the failure substrings match (no proposal chosen / authentication failed
on either output, timeout or retransmit on the bring-up output, all
matched case-insensitively as the code does), the bring-up output
contains ISAKMP SA established or STATE_MAIN_R3, and neither output
contains expired (case-insensitively), the attempt returns success=true
with no error detail: IPSec-only partial establishment is a success. -/
theorem partial_sa_counts_as_success (env : AttemptEnv) (server : Server)
    (urc : Int) (uout uerr : Str) (src : Int) (sout serr : Str)
    (hmk : env.mkdirRes = .ok) (hic : env.ipsecCfgRes = .ok) (hxc : env.xl2tpdCfgRes = .ok)
    (hds : env.daemonStartRes = true) (hlc : env.loadCfgRes = true)
    (hup : env.upRes = .ok urc uout uerr) (hst : env.statusRes = .ok src sout serr)
    (hest : containsB (if src = 0 then sout else noStatusMsg) establishedPat = false)
    (hnpc1 : containsB (lowerStr uout) npcPat = false)
    (hnpc2 : containsB (lowerStr (if src = 0 then sout else noStatusMsg)) npcPat = false)
    (hau1 : containsB (lowerStr uout) authPat = false)
    (hau2 : containsB (lowerStr (if src = 0 then sout else noStatusMsg)) authPat = false)
    (htm : containsB (lowerStr uout) timeoutPat = false)
    (hrt : containsB (lowerStr uout) retransmitPat = false)
    (hsa : containsB uout isakmpPat = true ∨ containsB uout stateMainPat = true)
    (hex1 : containsB (lowerStr uout) "expired".data = false)
    (hex2 : containsB (lowerStr (if src = 0 then sout else noStatusMsg)) "expired".data = false) :
    (_test_vpn_connection env server).1.success = true ∧
      (_test_vpn_connection env server).1.error_message = none := by
  have hp := basic_connectivity_true env.pingRes
  rcases hsa with h | h <;>
    simp [_test_vpn_connection, attemptBody, classifyOutcome, hp, hmk, hic, hxc, hds, hlc,
      hup, hst, hest, hnpc1, hnpc2, hau1, hau2, htm, hrt, h, hex1, hex2]

/-- Environment whose bring-up output reports an ISAKMP SA but whose
status output never reaches ESTABLISHED and nothing expired. -/
def envPartialSa : AttemptEnv :=
  { envAllOk with
      upRes := .ok 0 "ISAKMP SA established".data [],
      statusRes := .ok 0 "0 up".data [] }

/-- Witness for C10 on a concrete partial-establishment run. -/
theorem partial_sa_counts_as_success_witness :
    (_test_vpn_connection envPartialSa srvNy1).1.success = true ∧
      (_test_vpn_connection envPartialSa srvNy1).1.error_message = none :=
  partial_sa_counts_as_success envPartialSa srvNy1
    0 "ISAKMP SA established".data [] 0 "0 up".data []
    rfl rfl rfl rfl rfl rfl rfl
    (by decide) (by decide) (by decide) (by decide) (by decide)
    (by decide) (by decide) (Or.inl (by decide)) (by decide) (by decide)

theorem runKillalls_ok (killRes : Str → SubprocResult) :
    ∀ L : List Str, (∀ p ∈ L, (killRes p).completed = true) →
      runKillalls killRes L = true := by
  intro L
  induction L with
  | nil => intro _; rfl
  | cons p rest ih =>
    intro hall
    have hp := hall p (by simp)
    cases hkp : killRes p with
    | ok rc o e => simp [runKillalls, hkp]; exact ih (fun q hq => hall q (by simp [hq]))
    | timeoutExpired => rw [hkp] at hp; simp [SubprocResult.completed] at hp
    | exc m => rw [hkp] at hp; simp [SubprocResult.completed] at hp

theorem removeListedFiles_ok (rres : Str → FileOpResult) :
    ∀ (L : List Str) (fs : FS), (∀ f ∈ L, rres f = .ok) →
      ∃ fs1, removeListedFiles rres L fs = .ok fs1 ∧
        (∀ g ∈ fs1, g ∈ fs) ∧ (∀ f ∈ L, f ∉ fs1) := by
  intro L
  induction L with
  | nil =>
    intro fs _
    exact ⟨fs, rfl, fun g hg => hg, by simp⟩
  | cons f rest ih =>
    intro fs hall
    have hf : rres f = .ok := hall f (by simp)
    have hrest : ∀ g ∈ rest, rres g = .ok := fun g hg => hall g (by simp [hg])
    by_cases hmem : f ∈ fs
    · obtain ⟨fs1, heq, hsub, hnot⟩ := ih (fs.filter (fun g => g ≠ f)) hrest
      refine ⟨fs1, ?_, ?_, ?_⟩
      · simp only [removeListedFiles]
        rw [if_pos hmem, hf]
        exact heq
      · intro g hg
        exact (List.mem_filter.mp (hsub g hg)).1
      · intro x hx
        rcases List.mem_cons.mp hx with rfl | hx2
        · intro hxin
          have := List.mem_filter.mp (hsub x hxin)
          simp at this
        · exact hnot x hx2
    · obtain ⟨fs1, heq, hsub, hnot⟩ := ih fs hrest
      refine ⟨fs1, ?_, hsub, ?_⟩
      · simp [removeListedFiles, hmem, heq]
      · intro x hx
        rcases List.mem_cons.mp hx with rfl | hx2
        · intro hxin; exact hmem (hsub x hxin)
        · exact hnot x hx2

/-- Environment for the cleanup operation in which the very first
command (ipsec down, 5 second limit) raises subprocess.TimeoutExpired
while everything else would succeed. -/
def stopEnvDownTimeout : StopEnv where
  downRes := .timeoutExpired
  stopRes := .ok 0 [] []
  killRes := fun _ => .ok 0 [] []
  removeRes := fun _ => .ok

/-- Counterexample to C5: when ipsec down exceeds its timeout, the raised
exception skips the file-removal loop and is swallowed by the except
handler, so a listed stale PID file that existed before the call still
exists after it - the claim that no listed file remains after any call
is false. -/
theorem stale_files_can_remain_counterexample :
    "/var/run/charon.pid".data ∈ files_to_remove ∧
    _stop_all_vpn_connections stopEnvDownTimeout ["/var/run/charon.pid".data] =
      ["/var/run/charon.pid".data] := by
  decide

/-- C5 (amended): the cleanup operation always returns without raising
(the model is total and the except handler swallows every exception);
when no underlying command or removal raises - in particular in the
idempotent nothing-running, no-files case - the body completes without
reaching the except handler, and afterwards none of the listed stale
control/PID files remain on disk.  When an intermediate step does raise,
listed files may survive the call. -/
theorem cleanup_removes_listed_files (env : StopEnv) (fs : FS)
    (hdown : env.downRes.completed = true) (hstop : env.stopRes.completed = true)
    (hkill : ∀ p ∈ processes_to_kill, (env.killRes p).completed = true)
    (hrem : ∀ f ∈ files_to_remove, env.removeRes f = .ok) :
    (∃ fs1, stopAllBody env fs = .ok fs1) ∧
      ∀ f ∈ files_to_remove, f ∉ _stop_all_vpn_connections env fs := by
  obtain ⟨fs1, heq, hsub, hnot⟩ := removeListedFiles_ok env.removeRes files_to_remove fs hrem
  have hbody : stopAllBody env fs = .ok fs1 := by
    simp [stopAllBody, hdown, hstop, runKillalls_ok env.killRes processes_to_kill hkill, heq]
  refine ⟨⟨fs1, hbody⟩, ?_⟩
  intro f hf
  simp [_stop_all_vpn_connections, hbody]
  exact hnot f hf

/-- Environment for the cleanup operation in which every command and
removal succeeds. -/
def stopEnvAllOk : StopEnv where
  downRes := .ok 0 [] []
  stopRes := .ok 0 [] []
  killRes := fun _ => .ok 0 [] []
  removeRes := fun _ => .ok

/-- Witness for C5 (amended): a clean call on a file system holding one
listed stale file and one unrelated file. -/
theorem cleanup_removes_listed_files_witness :
    (∃ fs1, stopAllBody stopEnvAllOk
        ["/var/run/charon.pid".data, "/etc/hosts".data] = .ok fs1) ∧
      ∀ f ∈ files_to_remove,
        f ∉ _stop_all_vpn_connections stopEnvAllOk
          ["/var/run/charon.pid".data, "/etc/hosts".data] :=
  cleanup_removes_listed_files stopEnvAllOk
    ["/var/run/charon.pid".data, "/etc/hosts".data]
    rfl rfl (fun _ _ => rfl) (fun _ _ => rfl)

theorem monitorCount_monitorUpsert (key su os ver : Str) (now : Nat) :
    ∀ rows : List MonitorRow,
      monitorCount (monitorUpsert key su os ver now rows) key =
        some ((monitorCount rows key).getD 0 + 1) := by
  intro rows
  induction rows with
  | nil => simp [monitorUpsert, monitorCount]
  | cons r rs ih =>
    by_cases h : r.computer_identifier = key
    · simp [monitorUpsert, monitorCount, h]
    · simp [monitorUpsert, monitorCount, h, ih]

/-- C6: whenever an attempt outcome is successfully recorded (every
database step of _log_result succeeds), the monitor_instances row keyed
by the monitoring-host identifier holds a running total exactly one
larger than before - starting at 1 when the row was absent - for
successful and failed attempts alike; it is never decreased or reset. -/
theorem heartbeat_increments_by_one (env : LogEnv) (si : SysInfo) (server : Server)
    (success : Bool) (ct : Option Nat) (err : Option Str) (db : DB)
    (hc : env.connectRes = .ok) (hi : env.insertRes = .ok)
    (hu : env.upsertRes = .ok) (hm : env.commitRes = .ok) :
    monitorCount (_log_result env si server success ct err db).monitor_instances si.hostname =
      some ((monitorCount db.monitor_instances si.hostname).getD 0 + 1) := by
  simp [_log_result, logResultBody, hc, hi, hu, hm, monitorCount_monitorUpsert]

/-- System-information fixture. -/
def si0 : SysInfo :=
  ⟨"host1".data, "root".data, "Linux".data, "6.1".data, some "1.2.3.4".data⟩

/-- Logging environment in which every database step succeeds. -/
def lenvOk : LogEnv := ⟨.ok, .ok, .ok, .ok, 1000⟩

/-- Database fixture holding an existing heartbeat row for host1 with a
running total of 6. -/
def db0 : DB :=
  ⟨[], [⟨"host1".data, "root".data, "Linux 6.1".data, "1.9.0".data, 6, 500⟩]⟩

/-- Witness for C6: recording a failed attempt against a database whose
heartbeat row for host1 stands at 6. -/
theorem heartbeat_increments_by_one_witness :
    monitorCount
        (_log_result lenvOk si0 srvNy1 false (some 1234)
          (some vpnTimeoutMsg) db0).monitor_instances si0.hostname =
      some ((monitorCount db0.monitor_instances si0.hostname).getD 0 + 1) :=
  heartbeat_increments_by_one lenvOk si0 srvNy1 false (some 1234)
    (some vpnTimeoutMsg) db0 rfl rfl rfl rfl

/-- C8: any exception raised while connecting, inserting or upserting is
caught inside _log_result, which then returns the database unchanged;
and the per-server monitoring loop of run_tests always processes every
configured server - one collected outcome per server - no matter what
the attempt and persistence environments (failures included) return. -/
theorem persistence_failure_swallowed (env : LogEnv) (si : SysInfo) (server : Server)
    (success : Bool) (ct : Option Nat) (err : Option Str) (db : DB) (e : Str) :
    (logResultBody env si server success ct err db = .error e →
      _log_result env si server success ct err db = db) ∧
    ∀ (aenv : Nat → AttemptEnv) (lenv : Nat → LogEnv) (servers : List Server) (db2 : DB),
      (run_tests si aenv lenv servers db2).1.length = servers.length := by
  constructor
  · intro h
    simp [_log_result, h]
  · intro aenv lenv servers db2
    have hloop : ∀ (l : List Server) (d : DB) (i : Nat),
        (runTestsLoop si aenv lenv i l d).1.length = l.length := by
      intro l
      induction l with
      | nil => intro d i; rfl
      | cons sv rest ih => intro d i; simp [runTestsLoop, ih]
    exact hloop servers db2 0

/-- Logging environment in which obtaining the database connection raises. -/
def lenvConnFail : LogEnv := ⟨.exc "db down".data, .ok, .ok, .ok, 0⟩

/-- Witness for C8: a failing database connection leaves the database
unchanged and the loop still produces one outcome for each of two servers. -/
theorem persistence_failure_swallowed_witness :
    _log_result lenvConnFail si0 srvNy1 true (some 5) none db0 = db0 ∧
    (run_tests si0 (fun _ => envAllOk) (fun _ => lenvConnFail)
        [srvNy1, srvNy1] db0).1.length = 2 :=
  ⟨(persistence_failure_swallowed lenvConnFail si0 srvNy1 true (some 5) none db0
      "db down".data).1 rfl,
   (persistence_failure_swallowed lenvConnFail si0 srvNy1 true (some 5) none db0
      "db down".data).2 (fun _ => envAllOk) (fun _ => lenvConnFail) [srvNy1, srvNy1] db0⟩

theorem parseServerEntry_none_of_short (e : Str)
    (h : (splitOnChar ':' (trimStr e)).length < 5) : parseServerEntry e = none := by
  unfold parseServerEntry
  rcases hL : splitOnChar ':' (trimStr e) with _ | ⟨a, _ | ⟨b, _ | ⟨c, _ | ⟨d, _ | ⟨x, rest⟩⟩⟩⟩⟩
  · rfl
  · rfl
  · rfl
  · rfl
  · rfl
  · rw [hL] at h
    cases rest with
    | nil => simp at h
    | cons y t => rfl

/-- C7: in any configured list, an entry whose stripped text splits into
exactly five colon-delimited fields contributes a server whose name,
address, username, password and pre-shared key are those fields in order
and in list position, while an entry with fewer than five fields is
skipped: the attempted-server list is the same as if the entry were
absent. -/
theorem server_spec_parsing (s : Str) (pre post : List Str) (e : Str) (n i u p k : Str)
    (hs : s ≠ []) (hsplit : splitOnChar ',' s = pre ++ e :: post) :
    (splitOnChar ':' (trimStr e) = [n, i, u, p, k] →
       _parse_vpn_servers s =
         .ok (parseServerEntries pre ++ Server.mk n i u p k :: parseServerEntries post)) ∧
    ((splitOnChar ':' (trimStr e)).length < 5 →
       _parse_vpn_servers s = .ok (parseServerEntries (pre ++ post))) := by
  constructor
  · intro h5
    have he : parseServerEntry e = some (Server.mk n i u p k) := by
      unfold parseServerEntry
      rw [h5]
    simp [_parse_vpn_servers, hs, hsplit, parseServerEntries, List.filterMap_append,
      List.filterMap_cons, he]
  · intro hlt
    have he := parseServerEntry_none_of_short e hlt
    simp [_parse_vpn_servers, hs, hsplit, parseServerEntries, List.filterMap_append,
      List.filterMap_cons, he]

/-- Witness for C7: the Scenario A specification parses to the expected
server target, and a three-field entry ahead of it is skipped. -/
theorem server_spec_parsing_witness :
    _parse_vpn_servers "ny1:203.0.113.5:alice:secret:psk123".data =
      .ok (parseServerEntries [] ++
        Server.mk "ny1".data "203.0.113.5".data "alice".data "secret".data "psk123".data ::
          parseServerEntries []) ∧
    _parse_vpn_servers "bad:entry,ny1:203.0.113.5:alice:secret:psk123".data =
      .ok (parseServerEntries ([] ++ ["ny1:203.0.113.5:alice:secret:psk123".data])) :=
  ⟨(server_spec_parsing "ny1:203.0.113.5:alice:secret:psk123".data [] []
      "ny1:203.0.113.5:alice:secret:psk123".data
      "ny1".data "203.0.113.5".data "alice".data "secret".data "psk123".data
      (by decide) (by decide)).1 (by decide),
   (server_spec_parsing "bad:entry,ny1:203.0.113.5:alice:secret:psk123".data []
      ["ny1:203.0.113.5:alice:secret:psk123".data] "bad:entry".data
      [] [] [] [] []
      (by decide) (by decide)).2 (by decide)⟩
